import Mathlib

/-!
Verification of the Authenticated Request Orchestration Layer of a
Google-Workspace MCP server (source: src/index.ts).

The TypeScript source is shallowly embedded: each function of the core
(`getTokens`, `getAuthenticatedClient`, `smartDriveSearch`, the error
classification block of the `CallToolRequestSchema` handler) becomes an
executable Lean definition.  External collaborators (the Supabase store,
the OAuth refresh exchange, the per-tool Google API calls) are passed in
as explicit function parameters, and observable side effects (store
reads, backoff sleeps, upserts, remote calls) are returned as explicit
traces so that temporal claims can be stated.

JavaScript-specific behaviour is modelled faithfully where the claims
depend on it: string truthiness and numeric truthiness (`0` is falsy),
optional chaining on `error.message`, and the `TypeError` raised by
calling `.includes` on a non-string value.
-/

namespace McpGoogle

/-! ## String utilities (models of the JS string operations used) -/

/-- One quote character (ASCII 39), used to build Drive query strings. -/
def sq : String := String.singleton (Char.ofNat 39)

/-- Case mapping of a string, model of JS `String.prototype.toLowerCase`
(the source only ever lower-cases ASCII search terms). -/
def strLower (s : String) : String := ⟨s.data.map Char.toLower⟩

/-- Model of JS `String.prototype.toUpperCase`. -/
def strUpper (s : String) : String := ⟨s.data.map Char.toUpper⟩

/-- Model of JS `String.prototype.substring(0, n)` (with `n ≤ length`). -/
def strTake (s : String) (n : Nat) : String := ⟨s.data.take n⟩

/-- Substring containment on character lists, model of JS
`String.prototype.includes`. -/
def containsSub (hay needle : List Char) : Bool :=
  (List.range (hay.length + 1)).any (fun i => needle.isPrefixOf (hay.drop i))

/-- Substring containment on strings. -/
def strContainsSub (hay needle : String) : Bool :=
  containsSub hay.data needle.data

/-! ## The term-extraction regex

`query.match(/name contains ['"](.+?)['"]/i)` : scan for the literal
`name contains ` (case-insensitively), an opening quote, then a lazy
non-empty capture (`.` matches anything but a newline) closed by the
first following quote.  On failure at one start position the scan moves
one character right. -/

/-- A character matched by the regex class `['"]`. -/
def isQuote (c : Char) : Bool := c = Char.ofNat 39 || c = Char.ofNat 34

/-- Case-insensitive match of a literal at the head of the input;
returns the remaining input on success. -/
def matchesLit : List Char → List Char → Option (List Char)
  | [], rest => some rest
  | _ :: _, [] => none
  | l :: ls, c :: cs => if l.toLower = c.toLower then matchesLit ls cs else none

/-- Lazy extension of the capture group: `acc` holds the (reversed,
non-empty) characters captured so far; the first quote character closes
the group, a newline kills the attempt. -/
def lazyExtend (acc : List Char) : List Char → Option (List Char)
  | [] => none
  | c :: cs =>
    if isQuote c then some acc.reverse
    else if c = Char.ofNat 10 then none
    else lazyExtend (c :: acc) cs

/-- The capture group `(.+?)` followed by `['"]`: at least one
non-newline character, closed by the first quote after it. -/
def lazyCapture : List Char → Option (List Char)
  | [] => none
  | c :: cs => if c = Char.ofNat 10 then none else lazyExtend [c] cs

/-- One attempt of the whole pattern at the current start position. -/
def tryMatchAt (cs : List Char) : Option (List Char) :=
  match matchesLit ("name contains ".data) cs with
  | none => none
  | some rest =>
    match rest with
    | [] => none
    | q :: rest2 => if isQuote q then lazyCapture rest2 else none

/-- Left-to-right scan over start positions. -/
def scanMatch : List Char → Option (List Char)
  | [] => none
  | c :: cs =>
    match tryMatchAt (c :: cs) with
    | some cap => some cap
    | none => scanMatch cs

/-- Model of `query.match(/name contains ['"](.+?)['"]/i)`, returning
the first capture group. -/
def extractTerm (q : String) : Option String :=
  (scanMatch q.data).map (fun l => ⟨l⟩)

/-! ## Data model of the fallback query engine (`smartDriveSearch`) -/

/-- One item returned by the remote Drive search; `name` is optional
because the source guards it with `file.name?.`. -/
structure DriveFile where
  id : String
  name : Option String
  mimeType : String
deriving DecidableEq, Repr

/-- The remote search collaborator: `(queryString, pageSize)` to a list
of files, or a raw transport failure. -/
def SearchFn : Type := String → Nat → Except String (List DriveFile)

/-- One remote call recorded in the execution trace: the strategy number
(1–6, as in the source's log lines), the query string sent, and the
requested page size. -/
structure SearchCall where
  strat : Nat
  q : String
  pageSize : Nat
deriving DecidableEq, Repr

/-- The query `name contains '<t>'`. -/
def containsQuery (t : String) : String :=
  "name contains " ++ sq ++ t ++ sq

/-- Strategy 5's query: restrict to Google Docs. -/
def docQuery (t : String) : String :=
  containsQuery t ++ " and mimeType=" ++ sq ++ "application/vnd.google-apps.document" ++ sq

/-- Strategy 6's query: restrict to Google Sheets. -/
def sheetQuery (t : String) : String :=
  containsQuery t ++ " and mimeType=" ++ sq ++ "application/vnd.google-apps.spreadsheet" ++ sq

/-- One plain strategy call: a failed remote call or an empty result set
both yield `none` (the plan continues); a non-empty result set is
returned (model of `if (results.data.files && results.data.files.length > 0)`). -/
def runCall (fn : SearchFn) (q : String) (ps : Nat) : Option (List DriveFile) :=
  match fn q ps with
  | .error _ => none
  | .ok files => if 0 < files.length then some files else none

/-- Length of the truncated prefix used by the partial-match strategy:
`Math.max(4, Math.floor(term.length * 0.6))`. -/
def partialPrefixLen (term : String) : Nat := max 4 ((3 * term.length) / 5)

/-- The client-side filter of the partial-match strategy:
`file.name?.toLowerCase().includes(term.toLowerCase())` (a missing name
is falsy and filtered out). -/
def strat4Filter (term : String) (files : List DriveFile) : List DriveFile :=
  files.filter (fun f =>
    match f.name with
    | some n => strContainsSub (strLower n) (strLower term)
    | none => false)

/-- The partial-match strategy (logged as "Strategy 4" in the source):
query the lower-cased prefix with a `3 × maxResults` cap, filter to
items whose name contains the original term case-insensitively, and on a
non-empty filtered set return its first `maxResults` items. -/
def strat4Run (fn : SearchFn) (term : String) (maxResults : Nat) :
    Option (List DriveFile) × SearchCall :=
  let partialTerm := strTake term (partialPrefixLen term)
  let q4 := containsQuery (strLower partialTerm)
  (match fn q4 (maxResults * 3) with
   | .error _ => none
   | .ok files =>
     let filtered := strat4Filter term files
     if 0 < filtered.length then some (filtered.take maxResults) else none,
   ⟨4, q4, maxResults * 3⟩)

/-- Strategies 5 and 6 (Docs-specific, then Sheets-specific), run after
all earlier strategies came up empty; `prior` is the trace accumulated
so far. -/
def smartTail56 (fn : SearchFn) (term : String) (maxResults : Nat)
    (prior : List SearchCall) : List DriveFile × List SearchCall :=
  let c5 : SearchCall := ⟨5, docQuery (strLower term), maxResults⟩
  match runCall fn (docQuery (strLower term)) maxResults with
  | some files => (files, prior ++ [c5])
  | none =>
    let c6 : SearchCall := ⟨6, sheetQuery (strLower term), maxResults⟩
    match runCall fn (sheetQuery (strLower term)) maxResults with
    | some files => (files, prior ++ [c5, c6])
    | none => ([], prior ++ [c5, c6])

/-- Model of `smartDriveSearch(auth, query, maxResults)`: the nested
try/fallthrough chain of the source, returning the result list together
with the trace of remote calls actually made. -/
def smartDriveSearch (fn : SearchFn) (query : String) (maxResults : Nat) :
    List DriveFile × List SearchCall :=
  let c1 : SearchCall := ⟨1, query, maxResults⟩
  match runCall fn query maxResults with
  | some files => (files, [c1])
  | none =>
    match extractTerm query with
    | none => ([], [c1])
    | some term =>
      let c2 : SearchCall := ⟨2, containsQuery (strLower term), maxResults⟩
      match runCall fn (containsQuery (strLower term)) maxResults with
      | some files => (files, [c1, c2])
      | none =>
        let c3 : SearchCall := ⟨3, containsQuery (strUpper term), maxResults⟩
        match runCall fn (containsQuery (strUpper term)) maxResults with
        | some files => (files, [c1, c2, c3])
        | none =>
          if 4 ≤ term.length then
            match (strat4Run fn term maxResults).1 with
            | some files => (files, [c1, c2, c3, (strat4Run fn term maxResults).2])
            | none => smartTail56 fn term maxResults [c1, c2, c3, (strat4Run fn term maxResults).2]
          else
            smartTail56 fn term maxResults [c1, c2, c3]

/-- The strategies applicable to a query, in plan order: strategy 1
always; 2–6 only when the term-extraction regex matches; 4 only when the
extracted term has length at least 4. -/
def applicableStrats (q : String) : List Nat :=
  match extractTerm q with
  | none => [1]
  | some term => if 4 ≤ term.length then [1, 2, 3, 4, 5, 6] else [1, 2, 3, 5, 6]

/-- What strategy `i` yields when executed (`none` = remote failure or
empty result set, i.e. the plan continues past it). -/
def stratOutcome (fn : SearchFn) (query : String) (maxResults : Nat) : Nat → Option (List DriveFile)
  | 1 => runCall fn query maxResults
  | 2 => match extractTerm query with
         | some t => runCall fn (containsQuery (strLower t)) maxResults
         | none => none
  | 3 => match extractTerm query with
         | some t => runCall fn (containsQuery (strUpper t)) maxResults
         | none => none
  | 4 => match extractTerm query with
         | some t => (strat4Run fn t maxResults).1
         | none => none
  | 5 => match extractTerm query with
         | some t => runCall fn (docQuery (strLower t)) maxResults
         | none => none
  | 6 => match extractTerm query with
         | some t => runCall fn (sheetQuery (strLower t)) maxResults
         | none => none
  | _ => none

/-! ## Credential store reads (`getTokens`) -/

/-- A stored credential record (the `tokens` JSON persisted per user).
`expiry_date` is a millisecond timestamp; its absence and the JS
falsiness of `0` both matter to the refresh decision. -/
structure Tokens where
  access_token : String
  refresh_token : Option String
  expiry_date : Option Nat
deriving DecidableEq, Repr

/-- Outcome of one raw Supabase read attempt: a `{data, error}` response
with no error (`data?.tokens` may still be absent), a response carrying
an error object with a code, or an exception thrown by the call itself. -/
inductive FetchOutcome
  | ok (tokens : Option Tokens)
  | err (code : String) (msg : String)
  | exn (msg : String)
deriving DecidableEq, Repr

/-- The store collaborator: per principal and per attempt number, the
outcome of the read. -/
def FetchFn : Type := String → Nat → FetchOutcome

/-- Result of `getTokens`: the value returned or the `TemporaryError`
message thrown, the backoff sleeps performed (in ms), and the number of
store reads made. -/
structure GetTokensOut where
  result : Except String (Option Tokens)
  delays : List Nat
  calls : Nat
deriving Repr

/-- Message of the `TemporaryError` thrown when a Supabase error
response persists through the final attempt. -/
def dbUnavailableMsg : String :=
  "Database temporarily unavailable. Please try again in a moment."

/-- Message of the `TemporaryError` thrown when the read itself keeps
throwing through the final attempt. -/
def tokensUnavailableMsg : String :=
  "Unable to retrieve authentication tokens. Please try again."

/-- The retry loop of `getTokens`, over the list of attempt numbers
`[1, …, retries]`.  A PGRST116 error response returns `null` at once; any
other error response or exception sleeps `1000 * attempt` ms and moves to
the next attempt, or throws a `TemporaryError` on the final one. -/
def getTokensAux (fetch : FetchFn) (userId : String) (retries : Nat) :
    List Nat → GetTokensOut
  | [] => ⟨.ok none, [], 0⟩
  | attempt :: rest =>
    match fetch userId attempt with
    | .ok t => ⟨.ok t, [], 1⟩
    | .err code _ =>
      if code = "PGRST116" then ⟨.ok none, [], 1⟩
      else if attempt = retries then ⟨.error dbUnavailableMsg, [], 1⟩
      else
        let r := getTokensAux fetch userId retries rest
        ⟨r.result, 1000 * attempt :: r.delays, r.calls + 1⟩
    | .exn _ =>
      if attempt = retries then ⟨.error tokensUnavailableMsg, [], 1⟩
      else
        let r := getTokensAux fetch userId retries rest
        ⟨r.result, 1000 * attempt :: r.delays, r.calls + 1⟩

/-- Model of `getTokens(userId, retries = 3)`. -/
def getTokens (fetch : FetchFn) (userId : String) (retries : Nat := 3) : GetTokensOut :=
  getTokensAux fetch userId retries (List.range' 1 retries)

/-! ## Credential lifecycle (`getAuthenticatedClient`) -/

/-- The errors `getAuthenticatedClient` can throw: its own
`AuthenticationError`s, or the `TemporaryError` propagated from
`getTokens`. -/
inductive GacErr
  | authentication (msg : String)
  | temporary (msg : String)
deriving DecidableEq, Repr

/-- Result of `getAuthenticatedClient`: the credentials held by the
returned client or the error thrown, the successful store upserts
performed (principal, record), and the number of refresh exchanges
attempted. -/
structure GacOut where
  result : Except GacErr Tokens
  saves : List (String × Tokens)
  refreshCalls : Nat
deriving Repr

/-- The OAuth start URL embedded in authentication errors; the base is
derived from the `GOOGLE_REDIRECT_URI` environment value, modelled as an
opaque constant. -/
def oauthStartBase : String := "https://service/oauth/start"

/-- The URL `…/oauth/start?userId=<userId>`. -/
def authUrl (userId : String) : String := oauthStartBase ++ "?userId=" ++ userId

/-- Message of the `AuthenticationError` thrown for an absent record. -/
def notAuthenticatedMsg (userId : String) : String :=
  "User not authenticated. Please visit: " ++ authUrl userId

/-- Message of the `AuthenticationError` thrown when refresh (or the
persistence of its outcome) fails. -/
def refreshFailedMsg (userId : String) : String :=
  "Token expired and refresh failed. Please re-authenticate at: " ++ authUrl userId

/-- The refresh decision `tokens.expiry_date && tokens.expiry_date < Date.now()`:
JS truthiness makes an absent field and the value `0` both falsy. -/
def expiryTruthyLtNow (expiry : Option Nat) (now : Nat) : Bool :=
  match expiry with
  | none => false
  | some d => decide (d ≠ 0) && decide (d < now)

/-- The refresh collaborator (`client.refreshAccessToken()`): from the
credentials set on the client to new credentials, or a thrown failure. -/
def RefreshFn : Type := Tokens → Except String Tokens

/-- The persistence collaborator (`saveTokens` / Supabase upsert keyed by
`user_id`): succeeds or throws. -/
def SaveFn : Type := String → Tokens → Except String Unit

/-- Model of `getAuthenticatedClient(userId = 'default-user')`.  The
whole refresh-and-persist sequence sits inside one `try`, whose `catch`
throws an `AuthenticationError`; so a failed upsert also fails the call. -/
def getAuthenticatedClient (fetch : FetchFn) (refresh : RefreshFn) (save : SaveFn)
    (now : Nat) (userId : String := "default-user") : GacOut :=
  match (getTokens fetch userId).result with
  | .error m => ⟨.error (.temporary m), [], 0⟩
  | .ok none => ⟨.error (.authentication (notAuthenticatedMsg userId)), [], 0⟩
  | .ok (some tokens) =>
    if expiryTruthyLtNow tokens.expiry_date now then
      match refresh tokens with
      | .error _ => ⟨.error (.authentication (refreshFailedMsg userId)), [], 1⟩
      | .ok credentials =>
        match save userId credentials with
        | .error _ => ⟨.error (.authentication (refreshFailedMsg userId)), [], 1⟩
        | .ok _ => ⟨.ok credentials, [(userId, credentials)], 1⟩
    else ⟨.ok tokens, [], 0⟩

/-! ## Error classification (the `catch` block of the tool handler) -/

/-- The six semantic error kinds of the taxonomy. -/
inductive ErrKind
  | authentication
  | notFound
  | permissionDenied
  | temporary
  | rateLimited
  | unknown
deriving DecidableEq, Repr

/-- Which custom error class (if any) a raw error is an instance of; a
JS object is an instance of at most one of these sibling classes. -/
inductive Marker
  | authE
  | notFoundE
  | permE
  | tempE
deriving DecidableEq, Repr

/-- The dynamic value found in `error.message`: absent, a string, or a
non-string value (a number suffices to model the malformed case: calling
`.includes` on it raises a `TypeError`). -/
inductive MsgVal
  | str (s : String)
  | num (n : Nat)
deriving DecidableEq, Repr

/-- A raw error value reaching the `catch (error: any)` block. -/
structure RawError where
  tag : Option Marker
  code : Option Nat
  message : Option MsgVal
deriving DecidableEq, Repr

/-- Model of `error.message?.includes(needle)`: optional chaining short-circuits
an absent message to `undefined` (falsy); a string message does a
substring test; a non-string message raises a `TypeError`. -/
def msgIncl (m : Option MsgVal) (needle : String) : Except Unit Bool :=
  match m with
  | none => .ok false
  | some (.str s) => .ok (strContainsSub s needle)
  | some (.num _) => .error ()

/-- JS `a || e` where `a` is an already-evaluated boolean and `e` may
throw: short-circuit. -/
def orB (b : Bool) (x : Except Unit Bool) : Except Unit Bool :=
  if b then .ok true else x

/-- JS `e1 || e2` where both operands may throw: left to right,
short-circuit on a truthy left value. -/
def orE (x y : Except Unit Bool) : Except Unit Bool :=
  match x with
  | .error u => .error u
  | .ok true => .ok true
  | .ok false => y

/-- String interpolation of `error.message` into a template
(`undefined` renders as the text `undefined`). -/
def renderMsg : Option MsgVal → String
  | none => "undefined"
  | some (.str s) => s
  | some (.num n) => toString n

/-- The classified outcome surfaced to the MCP caller: its kind and the
rendered response text. -/
structure ClassifiedError where
  kind : ErrKind
  text : String
deriving DecidableEq, Repr

/-- Response text of the Authentication branch. -/
def authText (e : RawError) : String :=
  "🔒 Authentication Required\n\n" ++ renderMsg e.message ++
  "\n\nPlease authenticate by visiting the OAuth URL above."

/-- Response text of the Not Found branch. -/
def notFoundText (e : RawError) : String :=
  "❌ Not Found\n\n" ++ renderMsg e.message ++
  "\n\nThe requested resource doesn" ++ sq ++
  "t exist, may have been deleted, or you don" ++ sq ++ "t have access to it."

/-- Response text of the Permission Denied branch. -/
def permText (e : RawError) : String :=
  "🚫 Permission Denied\n\n" ++ renderMsg e.message ++
  "\n\nYou don" ++ sq ++
  "t have the necessary permissions to access or modify this resource."

/-- Response text of the Temporary Error branch. -/
def tempText (e : RawError) : String :=
  "⏱️ Temporary Error\n\n" ++ renderMsg e.message ++
  "\n\nThis is likely a temporary network issue. Please try again in a moment."

/-- Response text of the Rate Limit branch (it does not interpolate the
raw message). -/
def rateText : String :=
  "⚠️ Rate Limit Exceeded\n\nYou" ++ sq ++
  "ve made too many requests in a short period. Please wait a moment before trying again."

/-- Response text of the Unknown branch. -/
def unknownText (e : RawError) : String :=
  "❌ Error: " ++ renderMsg e.message ++
  "\n\nIf this error persists, please check:\n- Your internet connection\n- The parameters you provided\n- Whether you have access to the requested resource"

/-- Model of the error-classification chain in the tool handler's
`catch` block, including the `TypeError` it can itself raise when a
malformed error carries a non-string `message`. -/
def classify (e : RawError) : Except Unit ClassifiedError :=
  match orB (decide (e.tag = some .authE))
      (orE (msgIncl e.message "invalid_grant") (msgIncl e.message "Invalid Credentials")) with
  | .error u => .error u
  | .ok true => .ok ⟨.authentication, authText e⟩
  | .ok false =>
  match orB (decide (e.tag = some .notFoundE) || decide (e.code = some 404))
      (msgIncl e.message "not found") with
  | .error u => .error u
  | .ok true => .ok ⟨.notFound, notFoundText e⟩
  | .ok false =>
  match orB (decide (e.tag = some .permE) || decide (e.code = some 403))
      (orE (msgIncl e.message "permission") (msgIncl e.message "forbidden")) with
  | .error u => .error u
  | .ok true => .ok ⟨.permissionDenied, permText e⟩
  | .ok false =>
  match orB (decide (e.tag = some .tempE))
      (orE (msgIncl e.message "ECONNREFUSED")
        (orE (msgIncl e.message "timeout")
          (orE (msgIncl e.message "ETIMEDOUT") (msgIncl e.message "temporarily unavailable")))) with
  | .error u => .error u
  | .ok true => .ok ⟨.temporary, tempText e⟩
  | .ok false =>
  match orB (decide (e.code = some 429)) (msgIncl e.message "rate limit") with
  | .error u => .error u
  | .ok true => .ok ⟨.rateLimited, rateText⟩
  | .ok false => .ok ⟨.unknown, unknownText e⟩

/-- The kind of a classification outcome (`none` when classification
itself threw). -/
def kindOf (r : Except Unit ClassifiedError) : Option ErrKind :=
  match r with
  | .ok c => some c.kind
  | .error _ => none

/-! ## Spec-side classification orderings (for comparison with `classify`) -/

/-- Boolean message test used by the spec-side orderings (defined for
well-formed messages: absent or string). -/
def msgHas (m : Option MsgVal) (needle : String) : Bool :=
  match m with
  | some (.str s) => strContainsSub s needle
  | _ => false

/-- The kind a marker passes through. -/
def markerKind : Marker → ErrKind
  | .authE => .authentication
  | .notFoundE => .notFound
  | .permE => .permissionDenied
  | .tempE => .temporary

/-- The claim's stated precedence, word for word: a domain-level marker
passes through its own kind before any message/status-code rule; then
404 / "not found"; then 403 / permission / forbidden; then 429 / rate
limiting; then connection-refusal / timeout / transient unavailability;
otherwise Unknown. -/
def classifyKindClaim (e : RawError) : ErrKind :=
  match e.tag with
  | some m => markerKind m
  | none =>
    if e.code = some 404 ∨ msgHas e.message "not found" then .notFound
    else if e.code = some 403 ∨ msgHas e.message "permission" ∨ msgHas e.message "forbidden" then
      .permissionDenied
    else if e.code = some 429 ∨ msgHas e.message "rate limit" then .rateLimited
    else if msgHas e.message "ECONNREFUSED" ∨ msgHas e.message "timeout" ∨
        msgHas e.message "ETIMEDOUT" ∨ msgHas e.message "temporarily unavailable" then
      .temporary
    else .unknown

/-- The amended precedence, read off the code: one combined rule per
kind, in the order Authentication, NotFound, PermissionDenied,
Temporary, RateLimited; each rule tests its own marker together with its
message/status conditions, so a marker passes through only when no
earlier rule's message or status condition matches, and the Temporary
message rules precede the RateLimited rule. -/
def classifyKindAmended (e : RawError) : ErrKind :=
  if decide (e.tag = some .authE) ||
      (msgHas e.message "invalid_grant" || msgHas e.message "Invalid Credentials") then
    .authentication
  else if (decide (e.tag = some .notFoundE) || decide (e.code = some 404)) ||
      msgHas e.message "not found" then .notFound
  else if (decide (e.tag = some .permE) || decide (e.code = some 403)) ||
      (msgHas e.message "permission" || msgHas e.message "forbidden") then .permissionDenied
  else if decide (e.tag = some .tempE) ||
      (msgHas e.message "ECONNREFUSED" ||
        (msgHas e.message "timeout" ||
          (msgHas e.message "ETIMEDOUT" || msgHas e.message "temporarily unavailable"))) then
    .temporary
  else if decide (e.code = some 429) || msgHas e.message "rate limit" then .rateLimited
  else .unknown

/-- A raw error whose `message` is absent or a string (every error the
program itself constructs is of this shape). -/
def wfMsg (e : RawError) : Bool :=
  match e.message with
  | some (.num _) => false
  | _ => true

/-! ## The tool-call handler (`CallToolRequestSchema`) -/

/-- The MCP response of one tool call: the rendered text and the
`isError` flag. -/
structure ToolResponse where
  text : String
  isError : Bool
deriving DecidableEq, Repr

/-- The raw error value corresponding to an error thrown by
`getAuthenticatedClient` (an instance of one of the custom classes,
with a string message and no status code). -/
def rawOfGacErr : GacErr → RawError
  | .authentication m => ⟨some .authE, none, some (.str m)⟩
  | .temporary m => ⟨some .tempE, none, some (.str m)⟩

/-- The plain `Error` thrown by the `default` switch case. -/
def unknownToolRaw (name : String) : RawError :=
  ⟨none, none, some (.str ("Unknown tool: " ++ name))⟩

/-- Model of `(args as any).userId || 'default-user'`: an absent field and the
empty string (both falsy) fall back to the fixed principal. -/
def resolveUserId : Option String → String
  | none => "default-user"
  | some s => if s = "" then "default-user" else s

/-- The tool names with a `case` in the handler's switch. -/
def knownTools : List String :=
  ["gmail_search", "gmail_send", "gmail_read",
   "drive_search", "drive_read", "drive_create",
   "calendar_list_events", "calendar_create_event",
   "docs_read", "docs_create",
   "sheets_read", "sheets_write",
   "calendar_update_event", "calendar_delete_event",
   "contacts_create", "contacts_search", "contacts_update", "contacts_delete",
   "tasks_create", "tasks_list", "tasks_update", "tasks_complete", "tasks_delete",
   "drive_delete", "drive_rename", "drive_change_permissions",
   "docs_delete", "docs_append", "docs_format_text",
   "meet_schedule", "meet_get_link", "meet_cancel", "meet_list",
   "meet_add_participants"]

/-- The per-tool bodies, abstracted: given the tool name and the
authenticated client's credentials, a result text or a raw error,
together with the remote Google-API operations invoked. -/
def DispatchFn : Type := String → Tokens → Except RawError String × List String

/-- Observable outcome of one tool call: the MCP response (or the
exception escaping the handler when classification itself throws), the
kind assigned by the classifier when an error was classified, the
principal used, the remote operations invoked, and the store upserts
performed. -/
structure CallOut where
  response : Except Unit ToolResponse
  classifiedKind : Option ErrKind
  principal : String
  ops : List String
  saves : List (String × Tokens)

/-- Wrap a classification outcome as an error response. -/
def classifiedResponse (r : Except Unit ClassifiedError) : Except Unit ToolResponse :=
  match r with
  | .error u => .error u
  | .ok c => .ok ⟨c.text, true⟩

/-- Model of the `CallToolRequestSchema` handler: resolve the principal,
obtain an authenticated client, then dispatch on the tool name (the
`default` case throws `Unknown tool: <name>`); every error thrown on the
way is routed through the classification chain. -/
def handleCallTool (fetch : FetchFn) (refresh : RefreshFn) (save : SaveFn) (now : Nat)
    (dispatch : DispatchFn) (name : String) (argUserId : Option String) : CallOut :=
  let userId := resolveUserId argUserId
  let gac := getAuthenticatedClient fetch refresh save now userId
  match gac.result with
  | .error e =>
    ⟨classifiedResponse (classify (rawOfGacErr e)), kindOf (classify (rawOfGacErr e)),
      userId, [], gac.saves⟩
  | .ok tokens =>
    if name ∈ knownTools then
      match dispatch name tokens with
      | (.ok txt, ops) => ⟨.ok ⟨txt, false⟩, none, userId, ops, gac.saves⟩
      | (.error rawE, ops) =>
        ⟨classifiedResponse (classify rawE), kindOf (classify rawE), userId, ops, gac.saves⟩
    else
      ⟨classifiedResponse (classify (unknownToolRaw name)),
        kindOf (classify (unknownToolRaw name)), userId, [], gac.saves⟩

/-! ## Helper lemmas -/

theorem getTokens_eq_aux (fetch : FetchFn) (userId : String) :
    getTokens fetch userId = getTokensAux fetch userId 3 [1, 2, 3] := rfl

/-- A PGRST116 error response on the first attempt: `null` at once, no
backoff, a single store read. -/
theorem getTokens_pgrst116 (fetch : FetchFn) (userId msg : String)
    (h : fetch userId 1 = .err "PGRST116" msg) :
    getTokens fetch userId = ⟨.ok none, [], 1⟩ := by
  rw [getTokens_eq_aux]
  simp [getTokensAux, h]

/-- An absent record makes `getAuthenticatedClient` throw its
`AuthenticationError` with the reauthorization hint. -/
theorem gac_pgrst116 (fetch : FetchFn) (refresh : RefreshFn) (save : SaveFn)
    (now : Nat) (userId msg : String)
    (h : fetch userId 1 = .err "PGRST116" msg) :
    getAuthenticatedClient fetch refresh save now userId =
      ⟨.error (.authentication (notAuthenticatedMsg userId)), [], 0⟩ := by
  rw [getAuthenticatedClient, getTokens_pgrst116 fetch userId msg h]

end McpGoogle

namespace McpGoogle

/-! ## C1 -/

/-- C1: a credential-store read that reports the not-found marker
(PGRST116) returns `absent` immediately — one read, no backoff, not an
error — and `getAuthenticatedClient` then fails with an
Authentication-kind error, never a Temporary-kind one. -/
theorem notFound_marker_is_absent_then_authentication
    (fetch : FetchFn) (refresh : RefreshFn) (save : SaveFn) (now : Nat)
    (userId msg : String)
    (h : fetch userId 1 = .err "PGRST116" msg) :
    getTokens fetch userId = ⟨.ok none, [], 1⟩ ∧
    getAuthenticatedClient fetch refresh save now userId =
      ⟨.error (.authentication (notAuthenticatedMsg userId)), [], 0⟩ ∧
    ∀ m, getAuthenticatedClient fetch refresh save now userId ≠
      ⟨.error (.temporary m), [], 0⟩ := by
  refine ⟨getTokens_pgrst116 fetch userId msg h, gac_pgrst116 fetch refresh save now userId msg h, ?_⟩
  intro m hcontra
  rw [gac_pgrst116 fetch refresh save now userId msg h] at hcontra
  simp [GacOut.mk.injEq] at hcontra

theorem notFound_marker_witness :
    ((fun (_ : String) (_ : Nat) => FetchOutcome.err "PGRST116" "row not found") "u" 1 =
      FetchOutcome.err "PGRST116" "row not found") ∧
    (getTokens (fun _ _ => FetchOutcome.err "PGRST116" "row not found") "u" = ⟨.ok none, [], 1⟩ ∧
     getAuthenticatedClient (fun _ _ => FetchOutcome.err "PGRST116" "row not found")
        (fun t => .ok t) (fun _ _ => .ok ()) 5 "u" =
       ⟨.error (.authentication (notAuthenticatedMsg "u")), [], 0⟩ ∧
     ∀ m, getAuthenticatedClient (fun _ _ => FetchOutcome.err "PGRST116" "row not found")
        (fun t => .ok t) (fun _ _ => .ok ()) 5 "u" ≠
       ⟨.error (.temporary m), [], 0⟩) :=
  ⟨rfl, notFound_marker_is_absent_then_authentication
    (fun _ _ => FetchOutcome.err "PGRST116" "row not found")
    (fun t => .ok t) (fun _ _ => .ok ()) 5 "u" "row not found" rfl⟩

/-! ## C3 -/

/-- C3: on the refresh path of `getValidCredential`, a successful
refresh is persisted (upsert keyed by the principal) before the new
credential is returned; a failed persistence fails the call (with an
Authentication-kind error) instead of returning an unpersisted
credential; a failed refresh fails with an Authentication-kind error;
and — over all inputs — a successful, persisted refresh is the only path
that writes to the store. -/
theorem refresh_persists_before_return
    (fetch : FetchFn) (refresh : RefreshFn) (save : SaveFn) (now : Nat)
    (userId : String) (t : Tokens)
    (hfetch : (getTokens fetch userId).result = .ok (some t))
    (hexp : expiryTruthyLtNow t.expiry_date now = true) :
    (∀ creds, refresh t = .ok creds → save userId creds = .ok () →
        getAuthenticatedClient fetch refresh save now userId =
          ⟨.ok creds, [(userId, creds)], 1⟩) ∧
    (∀ creds m, refresh t = .ok creds → save userId creds = .error m →
        getAuthenticatedClient fetch refresh save now userId =
          ⟨.error (.authentication (refreshFailedMsg userId)), [], 1⟩) ∧
    (∀ m, refresh t = .error m →
        getAuthenticatedClient fetch refresh save now userId =
          ⟨.error (.authentication (refreshFailedMsg userId)), [], 1⟩) ∧
    (∀ (fetch2 : FetchFn) (refresh2 : RefreshFn) (save2 : SaveFn) (now2 : Nat) (userId2 : String),
        (getAuthenticatedClient fetch2 refresh2 save2 now2 userId2).saves ≠ [] →
        ∃ creds, (getAuthenticatedClient fetch2 refresh2 save2 now2 userId2).result = .ok creds ∧
          (getAuthenticatedClient fetch2 refresh2 save2 now2 userId2).saves = [(userId2, creds)] ∧
          (getAuthenticatedClient fetch2 refresh2 save2 now2 userId2).refreshCalls = 1) := by
  refine ⟨?_, ?_, ?_, ?_⟩
  · intro creds hr hs
    rw [getAuthenticatedClient, hfetch]
    simp [hexp, hr, hs]
  · intro creds m hr hs
    rw [getAuthenticatedClient, hfetch]
    simp [hexp, hr, hs]
  · intro m hr
    rw [getAuthenticatedClient, hfetch]
    simp [hexp, hr]
  · intro fetch2 refresh2 save2 now2 userId2 hne
    rw [getAuthenticatedClient] at hne ⊢
    rcases hres : (getTokens fetch2 userId2).result with m | t2
    · rw [hres] at hne; simp at hne
    · rcases t2 with _ | t2
      · rw [hres] at hne; simp at hne
      · rw [hres] at hne
        by_cases he : expiryTruthyLtNow t2.expiry_date now2 = true
        · rcases hr : refresh2 t2 with m | creds
          · simp [he, hr] at hne
          · rcases hs : save2 userId2 creds with m | u
            · simp [he, hr, hs] at hne
            · exact ⟨creds, by simp [he, hr, hs]⟩
        · simp [he] at hne

theorem refresh_persists_witness :
    ((getTokens (fun _ _ => FetchOutcome.ok (some ⟨"old", some "rt", some 1⟩)) "u").result =
        .ok (some ⟨"old", some "rt", some 1⟩)) ∧
    (expiryTruthyLtNow (some 1) 2 = true) ∧
    (∀ creds, (fun (_ : Tokens) => (Except.ok ⟨"new", some "rt", some 9⟩ : Except String Tokens)) (⟨"old", some "rt", some 1⟩ : Tokens) = .ok creds →
        (fun (_ : String) (_ : Tokens) => (Except.ok () : Except String Unit)) "u" creds = .ok () →
        getAuthenticatedClient (fun _ _ => FetchOutcome.ok (some ⟨"old", some "rt", some 1⟩))
            (fun _ => .ok ⟨"new", some "rt", some 9⟩) (fun _ _ => .ok ()) 2 "u" =
          ⟨.ok creds, [("u", creds)], 1⟩) :=
  ⟨rfl, by decide,
    (refresh_persists_before_return
      (fun _ _ => FetchOutcome.ok (some ⟨"old", some "rt", some 1⟩))
      (fun _ => .ok ⟨"new", some "rt", some 9⟩) (fun _ _ => .ok ()) 2 "u"
      ⟨"old", some "rt", some 1⟩ rfl (by decide)).1⟩

/-! ## C4 -/

/-- The stored credential of the C4 counterexample: an `expiry_date`
that is present and in the past, but equal to `0` and hence falsy in JS. -/
def c4Tokens : Tokens := ⟨"at", some "rt", some 0⟩

/-- A store read that always returns that credential. -/
def c4Fetch : FetchFn := fun _ _ => .ok (some c4Tokens)

/-- A refresh exchange that would succeed if it were attempted. -/
def c4Refresh : RefreshFn := fun _ => .ok ⟨"fresh", some "rt", some 9⟩

/-- A persistence collaborator that always succeeds. -/
def c4Save : SaveFn := fun _ _ => .ok ()

/-- C4 counterexample: the stored credential has `expiry_date = 0` —
present and strictly less than the current time `1` — yet
`getAuthenticatedClient` performs no refresh exchange and returns the
stored credential unchanged, because `tokens.expiry_date &&
tokens.expiry_date < Date.now()` is falsy at `0`. -/
theorem zero_expiry_skips_refresh_counterexample :
    c4Tokens.expiry_date = some 0 ∧ (0 : Nat) < 1 ∧
    (getAuthenticatedClient c4Fetch c4Refresh c4Save 1 "u").refreshCalls = 0 ∧
    (getAuthenticatedClient c4Fetch c4Refresh c4Save 1 "u").result = .ok c4Tokens := by
  exact ⟨rfl, by decide, rfl, rfl⟩

/-- C4 (amended): a refresh exchange is attempted iff the stored
credential's `expiry_date` is present, non-zero (JS truthiness of the
numeric field), and strictly less than the current time; otherwise the
stored credential is returned as-is, with no refresh round-trip and no
store write. -/
theorem expiry_refresh_condition_amended
    (fetch : FetchFn) (refresh : RefreshFn) (save : SaveFn) (now : Nat)
    (userId : String) (t : Tokens)
    (hfetch : (getTokens fetch userId).result = .ok (some t)) :
    ((getAuthenticatedClient fetch refresh save now userId).refreshCalls = 1 ↔
      ∃ e, t.expiry_date = some e ∧ e ≠ 0 ∧ e < now) ∧
    ((¬ ∃ e, t.expiry_date = some e ∧ e ≠ 0 ∧ e < now) →
      getAuthenticatedClient fetch refresh save now userId = ⟨.ok t, [], 0⟩) := by
  have hcond : expiryTruthyLtNow t.expiry_date now = true ↔
      ∃ e, t.expiry_date = some e ∧ e ≠ 0 ∧ e < now := by
    rcases t.expiry_date with _ | d <;> simp [expiryTruthyLtNow]
  rw [getAuthenticatedClient, hfetch]
  by_cases he : expiryTruthyLtNow t.expiry_date now = true
  · refine ⟨?_, fun hn => absurd (hcond.mp he) hn⟩
    rcases hr : refresh t with m | creds
    · simp [he, hr, hcond.mp he]
    · rcases hs : save userId creds with m | u <;> simp [he, hr, hs, hcond.mp he]
  · have he' : expiryTruthyLtNow t.expiry_date now = false := by
      revert he; cases expiryTruthyLtNow t.expiry_date now <;> simp
    constructor
    · simp only [he', Bool.false_eq_true, if_false]
      constructor
      · intro h01
        simp at h01
      · intro hex
        exact absurd (hcond.mpr hex) he
    · intro _
      simp [he']

theorem expiry_refresh_condition_witness :
    ((getTokens (fun _ _ => FetchOutcome.ok (some ⟨"at", some "rt", none⟩)) "u").result =
        .ok (some ⟨"at", some "rt", none⟩)) ∧
    (((getAuthenticatedClient (fun _ _ => FetchOutcome.ok (some ⟨"at", some "rt", none⟩))
          c4Refresh c4Save 7 "u").refreshCalls = 1 ↔
        ∃ e, (⟨"at", some "rt", none⟩ : Tokens).expiry_date = some e ∧ e ≠ 0 ∧ e < 7) ∧
      ((¬ ∃ e, (⟨"at", some "rt", none⟩ : Tokens).expiry_date = some e ∧ e ≠ 0 ∧ e < 7) →
        getAuthenticatedClient (fun _ _ => FetchOutcome.ok (some ⟨"at", some "rt", none⟩))
            c4Refresh c4Save 7 "u" = ⟨.ok ⟨"at", some "rt", none⟩, [], 0⟩)) :=
  ⟨rfl, expiry_refresh_condition_amended
    (fun _ _ => FetchOutcome.ok (some ⟨"at", some "rt", none⟩))
    c4Refresh c4Save 7 "u" ⟨"at", some "rt", none⟩ rfl⟩

/-! ## C7 -/

/-- A store failure that is a pure transport error: an error response
whose code is not the not-found marker, or an exception from the read
itself. -/
def isTransportFail : FetchOutcome → Bool
  | .ok _ => false
  | .err code _ => code != "PGRST116"
  | .exn _ => true

/-- A store read that fails with a transport error on every attempt. -/
def c7Fetch : FetchFn := fun _ _ => .err "NETERR" "connection reset"

/-- C7 counterexample: under an always-failing transport, `getTokens`
makes its 3 attempts but sleeps only twice — `1000 × 1` ms before attempt
2 and `1000 × 2` ms before attempt 3; the claimed schedule of three
delays `1, 2, 3` never occurs, because the final attempt throws without
a backoff sleep. -/
theorem backoff_delays_counterexample :
    (∀ a, isTransportFail (c7Fetch "default-user" a) = true) ∧
    (getTokens c7Fetch "default-user").calls = 3 ∧
    (getTokens c7Fetch "default-user").delays = [1000 * 1, 1000 * 2] ∧
    (getTokens c7Fetch "default-user").delays ≠ [1000 * 1, 1000 * 2, 1000 * 3] ∧
    (getTokens c7Fetch "default-user").result = .error dbUnavailableMsg := by
  refine ⟨fun a => rfl, rfl, rfl, by decide, rfl⟩

/-- C7 (amended): when every attempt fails with a pure transport error,
the resilient read makes exactly 3 store reads, with strictly increasing
backoff delays of `attempt × base_delay` (base 1000 ms) **before each
subsequent attempt** — i.e. delays `1000 × 1` and `1000 × 2`, with no
delay after the final failing attempt — and the eventual failure is one
of the two `TemporaryError`s, which the classifier maps to the
Temporary kind. -/
theorem resilient_read_retries_amended
    (fetch : FetchFn) (userId : String)
    (h : ∀ a, isTransportFail (fetch userId a) = true) :
    (getTokens fetch userId).calls = 3 ∧
    (getTokens fetch userId).delays = [1000 * 1, 1000 * 2] ∧
    (∃ m, (getTokens fetch userId).result = .error m ∧
      (m = dbUnavailableMsg ∨ m = tokensUnavailableMsg) ∧
      kindOf (classify ⟨some .tempE, none, some (.str m)⟩) = some .temporary) := by
  have hk : ∀ m, (m = dbUnavailableMsg ∨ m = tokensUnavailableMsg) →
      kindOf (classify ⟨some .tempE, none, some (.str m)⟩) = some .temporary := by
    rintro m (rfl | rfl) <;> decide
  rw [getTokens_eq_aux]
  rcases hf1 : fetch userId 1 with t1 | ⟨c1, m1⟩ | m1
  · have h1 := h 1
    rw [hf1] at h1
    simp [isTransportFail] at h1
  all_goals rcases hf2 : fetch userId 2 with t2 | ⟨c2, m2⟩ | m2
  case err.ok | exn.ok =>
    have h2 := h 2
    rw [hf2] at h2
    simp [isTransportFail] at h2
  all_goals rcases hf3 : fetch userId 3 with t3 | ⟨c3, m3⟩ | m3
  case err.err.ok | err.exn.ok | exn.err.ok | exn.exn.ok =>
    have h3 := h 3
    rw [hf3] at h3
    simp [isTransportFail] at h3
  case err.err.err =>
    have h1 : ¬(c1 = "PGRST116") := by
      have := h 1; rw [hf1] at this; simpa [isTransportFail] using this
    have h2 : ¬(c2 = "PGRST116") := by
      have := h 2; rw [hf2] at this; simpa [isTransportFail] using this
    have h3 : ¬(c3 = "PGRST116") := by
      have := h 3; rw [hf3] at this; simpa [isTransportFail] using this
    refine ⟨?_, ?_, dbUnavailableMsg, ?_, .inl rfl, hk _ (.inl rfl)⟩ <;>
      simp [getTokensAux, hf1, hf2, hf3, h1, h2, h3]
  case err.err.exn =>
    have h1 : ¬(c1 = "PGRST116") := by
      have := h 1; rw [hf1] at this; simpa [isTransportFail] using this
    have h2 : ¬(c2 = "PGRST116") := by
      have := h 2; rw [hf2] at this; simpa [isTransportFail] using this
    refine ⟨?_, ?_, tokensUnavailableMsg, ?_, .inr rfl, hk _ (.inr rfl)⟩ <;>
      simp [getTokensAux, hf1, hf2, hf3, h1, h2]
  case err.exn.err =>
    have h1 : ¬(c1 = "PGRST116") := by
      have := h 1; rw [hf1] at this; simpa [isTransportFail] using this
    have h3 : ¬(c3 = "PGRST116") := by
      have := h 3; rw [hf3] at this; simpa [isTransportFail] using this
    refine ⟨?_, ?_, dbUnavailableMsg, ?_, .inl rfl, hk _ (.inl rfl)⟩ <;>
      simp [getTokensAux, hf1, hf2, hf3, h1, h3]
  case err.exn.exn =>
    have h1 : ¬(c1 = "PGRST116") := by
      have := h 1; rw [hf1] at this; simpa [isTransportFail] using this
    refine ⟨?_, ?_, tokensUnavailableMsg, ?_, .inr rfl, hk _ (.inr rfl)⟩ <;>
      simp [getTokensAux, hf1, hf2, hf3, h1]
  case exn.err.err =>
    have h2 : ¬(c2 = "PGRST116") := by
      have := h 2; rw [hf2] at this; simpa [isTransportFail] using this
    have h3 : ¬(c3 = "PGRST116") := by
      have := h 3; rw [hf3] at this; simpa [isTransportFail] using this
    refine ⟨?_, ?_, dbUnavailableMsg, ?_, .inl rfl, hk _ (.inl rfl)⟩ <;>
      simp [getTokensAux, hf1, hf2, hf3, h2, h3]
  case exn.err.exn =>
    have h2 : ¬(c2 = "PGRST116") := by
      have := h 2; rw [hf2] at this; simpa [isTransportFail] using this
    refine ⟨?_, ?_, tokensUnavailableMsg, ?_, .inr rfl, hk _ (.inr rfl)⟩ <;>
      simp [getTokensAux, hf1, hf2, hf3, h2]
  case exn.exn.err =>
    have h3 : ¬(c3 = "PGRST116") := by
      have := h 3; rw [hf3] at this; simpa [isTransportFail] using this
    refine ⟨?_, ?_, dbUnavailableMsg, ?_, .inl rfl, hk _ (.inl rfl)⟩ <;>
      simp [getTokensAux, hf1, hf2, hf3, h3]
  case exn.exn.exn =>
    refine ⟨?_, ?_, tokensUnavailableMsg, ?_, .inr rfl, hk _ (.inr rfl)⟩ <;>
      simp [getTokensAux, hf1, hf2, hf3]

theorem resilient_read_retries_witness :
    (∀ a, isTransportFail (c7Fetch "default-user" a) = true) ∧
    ((getTokens c7Fetch "default-user").calls = 3 ∧
     (getTokens c7Fetch "default-user").delays = [1000 * 1, 1000 * 2] ∧
     (∃ m, (getTokens c7Fetch "default-user").result = .error m ∧
       (m = dbUnavailableMsg ∨ m = tokensUnavailableMsg) ∧
       kindOf (classify ⟨some .tempE, none, some (.str m)⟩) = some .temporary)) :=
  ⟨fun _ => rfl, resilient_read_retries_amended c7Fetch "default-user" (fun _ => rfl)⟩

/-! ## Classifier reduction lemmas -/

theorem msgIncl_wf (m : Option MsgVal) (h : (match m with | some (.num _) => false | _ => true) = true)
    (s : String) : msgIncl m s = .ok (msgHas m s) := by
  rcases m with _ | mv
  · rfl
  · rcases mv with s' | n
    · rfl
    · simp at h

theorem orB_ok (b c : Bool) : orB b (.ok c) = .ok (b || c) := by
  cases b <;> rfl

theorem orE_ok (a b : Bool) : orE (.ok a) (.ok b) = .ok (a || b) := by
  cases a <;> rfl

/-- Under a well-formed message, the classification chain reduces to a
first-match if-cascade whose conditions combine, per kind, the
`instanceof` test with the status-code and message tests of the source. -/
theorem classify_wf (e : RawError) (h : wfMsg e = true) :
    classify e =
      if decide (e.tag = some .authE) ||
          (msgHas e.message "invalid_grant" || msgHas e.message "Invalid Credentials") then
        .ok ⟨.authentication, authText e⟩
      else if (decide (e.tag = some .notFoundE) || decide (e.code = some 404)) ||
          msgHas e.message "not found" then .ok ⟨.notFound, notFoundText e⟩
      else if (decide (e.tag = some .permE) || decide (e.code = some 403)) ||
          (msgHas e.message "permission" || msgHas e.message "forbidden") then
        .ok ⟨.permissionDenied, permText e⟩
      else if decide (e.tag = some .tempE) ||
          (msgHas e.message "ECONNREFUSED" ||
            (msgHas e.message "timeout" ||
              (msgHas e.message "ETIMEDOUT" || msgHas e.message "temporarily unavailable"))) then
        .ok ⟨.temporary, tempText e⟩
      else if decide (e.code = some 429) || msgHas e.message "rate limit" then
        .ok ⟨.rateLimited, rateText⟩
      else .ok ⟨.unknown, unknownText e⟩ := by
  have hm : ∀ s, msgIncl e.message s = .ok (msgHas e.message s) :=
    msgIncl_wf e.message (by rcases e with ⟨tag, code, msg⟩; exact h)
  rw [classify]
  rw [hm, hm, hm, hm, hm, hm, hm, hm, hm, hm]
  rw [orE_ok, orB_ok, orB_ok, orE_ok, orB_ok, orE_ok, orE_ok, orE_ok, orB_ok, orB_ok]
  cases hb1 : decide (e.tag = some Marker.authE) ||
      (msgHas e.message "invalid_grant" || msgHas e.message "Invalid Credentials")
  · cases hb2 : (decide (e.tag = some Marker.notFoundE) || decide (e.code = some 404)) ||
        msgHas e.message "not found"
    · cases hb3 : (decide (e.tag = some Marker.permE) || decide (e.code = some 403)) ||
          (msgHas e.message "permission" || msgHas e.message "forbidden")
      · cases hb4 : decide (e.tag = some Marker.tempE) ||
            (msgHas e.message "ECONNREFUSED" ||
              (msgHas e.message "timeout" ||
                (msgHas e.message "ETIMEDOUT" || msgHas e.message "temporarily unavailable")))
        · cases hb5 : decide (e.code = some 429) || msgHas e.message "rate limit" <;>
            simp [hb1, hb2, hb3, hb4, hb5]
        · simp [hb1, hb2, hb3, hb4]
      · simp [hb1, hb2, hb3]
    · simp [hb1, hb2]
  · simp [hb1]

/-! ## C2 -/

/-- The C2 counterexample input: an error that is an instance of
`TemporaryError` (a domain-level Temporary marker) whose message happens
to contain "not found". -/
def c2Err : RawError := ⟨some .tempE, none, some (.str "resource not found")⟩

/-- C2 counterexample: the claim's precedence passes a domain-level
Temporary marker through as Temporary before any message rule, but the
code's interleaved chain tests NotFound's message rule first, so this
error classifies as NotFound. -/
theorem classification_precedence_counterexample :
    kindOf (classify c2Err) = some .notFound ∧
    classifyKindClaim c2Err = .temporary ∧
    ErrKind.notFound ≠ ErrKind.temporary := by
  decide

/-- C2 (amended): classification is first-match over one combined rule
per kind, in the order Authentication, NotFound, PermissionDenied,
Temporary, RateLimited, Unknown; each rule tests its own `instanceof`
marker together with its status-code/message conditions (so a marker
passes through its own kind only when no earlier rule's message or
status condition matches, and Temporary's message rules precede the
RateLimited rule).  In particular a 404 raw error never classifies as
Unknown, and classifies as NotFound whenever the Authentication rule
does not match it. -/
theorem classification_precedence_amended (e : RawError) (h : wfMsg e = true) :
    kindOf (classify e) = some (classifyKindAmended e) ∧
    (e.code = some 404 → kindOf (classify e) ≠ some .unknown) ∧
    (e.code = some 404 →
      e.tag ≠ some .authE → msgHas e.message "invalid_grant" = false →
      msgHas e.message "Invalid Credentials" = false →
      kindOf (classify e) = some .notFound) := by
  have hmain : kindOf (classify e) = some (classifyKindAmended e) := by
    rw [classify_wf e h, classifyKindAmended]
    split_ifs <;> rfl
  refine ⟨hmain, ?_, ?_⟩
  · intro h404
    rw [hmain]
    rw [classifyKindAmended]
    split_ifs with g1 g2 g3 g4 g5 <;> simp_all
  · intro h404 htag hig hic
    rw [hmain, classifyKindAmended]
    have : ¬ (decide (e.tag = some Marker.authE) ||
        (msgHas e.message "invalid_grant" || msgHas e.message "Invalid Credentials")) = true := by
      simp [htag, hig, hic]
    rw [if_neg this, if_pos (by simp [h404])]

theorem classification_precedence_witness :
    (wfMsg ⟨none, some 404, some (.str "File x missing")⟩ = true) ∧
    (kindOf (classify ⟨none, some 404, some (.str "File x missing")⟩) =
        some (classifyKindAmended ⟨none, some 404, some (.str "File x missing")⟩) ∧
      ((⟨none, some 404, some (.str "File x missing")⟩ : RawError).code = some 404 →
        kindOf (classify ⟨none, some 404, some (.str "File x missing")⟩) ≠ some .unknown) ∧
      ((⟨none, some 404, some (.str "File x missing")⟩ : RawError).code = some 404 →
        (⟨none, some 404, some (.str "File x missing")⟩ : RawError).tag ≠ some .authE →
        msgHas (⟨none, some 404, some (.str "File x missing")⟩ : RawError).message "invalid_grant" = false →
        msgHas (⟨none, some 404, some (.str "File x missing")⟩ : RawError).message "Invalid Credentials" = false →
        kindOf (classify ⟨none, some 404, some (.str "File x missing")⟩) = some .notFound)) :=
  ⟨by decide, classification_precedence_amended ⟨none, some 404, some (.str "File x missing")⟩ (by decide)⟩

/-! ## C8 -/

/-- The C8 counterexample input: a malformed error object whose
`message` property is the number `42`. -/
def c8Err : RawError := ⟨none, none, some (.num 42)⟩

/-- C8 counterexample: classification of a malformed error whose
`message` is a non-string value throws (the first
`error.message?.includes(...)` raises a `TypeError`), so the classifier
is not total over arbitrary malformed error objects. -/
theorem classifier_totality_counterexample :
    classify c8Err = .error () := by
  rfl

/-- C8 (amended): for every raw error whose `message` is absent or a
string — in particular every error the program itself constructs —
classification never throws and returns a classified error with exactly
one kind and a non-empty message. -/
theorem classifier_totality_amended (e : RawError) (h : wfMsg e = true) :
    ∃ c, classify e = .ok c ∧ 0 < c.text.length := by
  rw [classify_wf e h]
  have hauth : 0 < (authText e).length := by
    have h0 : 0 < ("🔒 Authentication Required\n\n" : String).length := by decide
    simp only [authText, String.length_append]
    omega
  have hnf : 0 < (notFoundText e).length := by
    have h0 : 0 < ("❌ Not Found\n\n" : String).length := by decide
    simp only [notFoundText, String.length_append]
    omega
  have hperm : 0 < (permText e).length := by
    have h0 : 0 < ("🚫 Permission Denied\n\n" : String).length := by decide
    simp only [permText, String.length_append]
    omega
  have htemp : 0 < (tempText e).length := by
    have h0 : 0 < ("⏱️ Temporary Error\n\n" : String).length := by decide
    simp only [tempText, String.length_append]
    omega
  have hrate : 0 < rateText.length := by decide
  have hunk : 0 < (unknownText e).length := by
    have h0 : 0 < ("❌ Error: " : String).length := by decide
    simp only [unknownText, String.length_append]
    omega
  split_ifs <;> exact ⟨_, rfl, by assumption⟩

theorem classifier_totality_witness :
    (wfMsg ⟨none, none, none⟩ = true) ∧
    (∃ c, classify ⟨none, none, none⟩ = .ok c ∧ 0 < c.text.length) :=
  ⟨by decide, classifier_totality_amended ⟨none, none, none⟩ (by decide)⟩

/-! ## Handler lemmas -/

/-- Every store upsert performed by `getAuthenticatedClient` is keyed by
the principal it was called with. -/
theorem gac_saves_key (fetch : FetchFn) (refresh : RefreshFn) (save : SaveFn)
    (now : Nat) (userId : String) :
    ∀ p ∈ (getAuthenticatedClient fetch refresh save now userId).saves, p.1 = userId := by
  intro p hp
  rw [getAuthenticatedClient] at hp
  rcases hres : (getTokens fetch userId).result with m | t
  · rw [hres] at hp; simp at hp
  · rcases t with _ | t
    · rw [hres] at hp; simp at hp
    · rw [hres] at hp
      by_cases he : expiryTruthyLtNow t.expiry_date now = true
      · rcases hr : refresh t with m | creds
        · simp [he, hr] at hp
        · rcases hs : save userId creds with m | u
          · simp [he, hr, hs] at hp
          · simp [he, hr, hs] at hp
            rw [hp]
      · simp [he] at hp

/-- The handler's principal is always the resolved `userId`. -/
theorem handleCallTool_principal (fetch : FetchFn) (refresh : RefreshFn) (save : SaveFn)
    (now : Nat) (dispatch : DispatchFn) (name : String) (argUserId : Option String) :
    (handleCallTool fetch refresh save now dispatch name argUserId).principal =
      resolveUserId argUserId := by
  rw [handleCallTool]
  rcases hres : (getAuthenticatedClient fetch refresh save now (resolveUserId argUserId)).result
      with e | tokens
  · rfl
  · by_cases hn : name ∈ knownTools
    · rcases hd : dispatch name tokens with ⟨r, ops⟩
      rcases r with rawE | txt <;> simp [hn, hd]
    · simp [hn]

/-- The handler's store writes are exactly those of
`getAuthenticatedClient` for the resolved principal. -/
theorem handleCallTool_saves (fetch : FetchFn) (refresh : RefreshFn) (save : SaveFn)
    (now : Nat) (dispatch : DispatchFn) (name : String) (argUserId : Option String) :
    (handleCallTool fetch refresh save now dispatch name argUserId).saves =
      (getAuthenticatedClient fetch refresh save now (resolveUserId argUserId)).saves := by
  rw [handleCallTool]
  rcases hres : (getAuthenticatedClient fetch refresh save now (resolveUserId argUserId)).result
      with e | tokens
  · rfl
  · by_cases hn : name ∈ knownTools
    · rcases hd : dispatch name tokens with ⟨r, ops⟩
      rcases r with rawE | txt <;> simp [hn, hd]
    · simp [hn]

/-! ## C9 -/

/-- C9: a tool invocation whose arguments omit `userId` runs on behalf
of the fixed principal `default-user` — the handler behaves identically
to one called with `userId = 'default-user'`, its principal is
`default-user`, and every store write it performs is keyed by
`default-user`.  (All tools share this single handler, so the default is
uniform.) -/
theorem omitted_userId_defaults_to_default_user
    (fetch : FetchFn) (refresh : RefreshFn) (save : SaveFn) (now : Nat)
    (dispatch : DispatchFn) (name : String) :
    handleCallTool fetch refresh save now dispatch name none =
      handleCallTool fetch refresh save now dispatch name (some "default-user") ∧
    (handleCallTool fetch refresh save now dispatch name none).principal = "default-user" ∧
    ∀ p ∈ (handleCallTool fetch refresh save now dispatch name none).saves,
      p.1 = "default-user" := by
  refine ⟨rfl, handleCallTool_principal fetch refresh save now dispatch name none, ?_⟩
  intro p hp
  rw [handleCallTool_saves] at hp
  exact gac_saves_key fetch refresh save now (resolveUserId none) p hp

/-! ## C10 -/

/-- C10: credential acquisition runs before dispatch on the tool name,
so a principal with no stored credential gets an Authentication-kind
response — with no remote operation invoked and no store write — for
every tool name, recognized or not; in particular an unrecognized name
does not produce the Unknown-kind `Unknown tool` response. -/
theorem credential_acquired_before_dispatch
    (fetch : FetchFn) (refresh : RefreshFn) (save : SaveFn) (now : Nat)
    (dispatch : DispatchFn) (name : String) (argUserId : Option String) (msg : String)
    (h : fetch (resolveUserId argUserId) 1 = .err "PGRST116" msg) :
    (handleCallTool fetch refresh save now dispatch name argUserId).ops = [] ∧
    (handleCallTool fetch refresh save now dispatch name argUserId).saves = [] ∧
    (handleCallTool fetch refresh save now dispatch name argUserId).classifiedKind =
      some .authentication ∧
    (handleCallTool fetch refresh save now dispatch name argUserId).classifiedKind ≠
      some .unknown ∧
    (handleCallTool fetch refresh save now dispatch name argUserId).response =
      .ok ⟨authText ⟨some .authE, none,
        some (.str (notAuthenticatedMsg (resolveUserId argUserId)))⟩, true⟩ := by
  have hg := gac_pgrst116 fetch refresh save now (resolveUserId argUserId) msg h
  rw [handleCallTool, hg]
  refine ⟨rfl, rfl, rfl, ?_, rfl⟩
  intro hbad
  exact ErrKind.noConfusion (Option.some.inj hbad)

theorem credential_acquired_before_dispatch_witness :
    ((fun (_ : String) (_ : Nat) => FetchOutcome.err "PGRST116" "nf") (resolveUserId none) 1 =
      FetchOutcome.err "PGRST116" "nf") ∧
    ((handleCallTool (fun _ _ => FetchOutcome.err "PGRST116" "nf") c4Refresh c4Save 3
        (fun _ _ => (.ok "done", [])) "bogus_tool" none).ops = [] ∧
     (handleCallTool (fun _ _ => FetchOutcome.err "PGRST116" "nf") c4Refresh c4Save 3
        (fun _ _ => (.ok "done", [])) "bogus_tool" none).saves = [] ∧
     (handleCallTool (fun _ _ => FetchOutcome.err "PGRST116" "nf") c4Refresh c4Save 3
        (fun _ _ => (.ok "done", [])) "bogus_tool" none).classifiedKind =
       some .authentication ∧
     (handleCallTool (fun _ _ => FetchOutcome.err "PGRST116" "nf") c4Refresh c4Save 3
        (fun _ _ => (.ok "done", [])) "bogus_tool" none).classifiedKind ≠
       some .unknown ∧
     (handleCallTool (fun _ _ => FetchOutcome.err "PGRST116" "nf") c4Refresh c4Save 3
        (fun _ _ => (.ok "done", [])) "bogus_tool" none).response =
       .ok ⟨authText ⟨some .authE, none,
         some (.str (notAuthenticatedMsg (resolveUserId none)))⟩, true⟩) :=
  ⟨rfl, credential_acquired_before_dispatch (fun _ _ => FetchOutcome.err "PGRST116" "nf")
    c4Refresh c4Save 3 (fun _ _ => (.ok "done", [])) "bogus_tool" none "nf" rfl⟩

/-! ## Fallback-engine lemmas -/

/-- A strategy that returns a result set returns a non-empty one. -/
theorem runCall_some_ne_nil {fn : SearchFn} {q : String} {ps : Nat} {files : List DriveFile}
    (h : runCall fn q ps = some files) : files ≠ [] := by
  rw [runCall] at h
  rcases hf : fn q ps with m | fl <;> rw [hf] at h <;> simp only [] at h
  · cases h
  · by_cases hl : 0 < fl.length
    · rw [if_pos hl] at h
      injection h with h2
      subst h2
      exact List.ne_nil_of_length_pos hl
    · rw [if_neg hl] at h
      cases h

/-- The recorded call of the partial-match strategy. -/
theorem strat4Run_snd (fn : SearchFn) (t : String) (mr : Nat) :
    (strat4Run fn t mr).2 =
      ⟨4, containsQuery (strLower (strTake t (partialPrefixLen t))), mr * 3⟩ := rfl

/-- When the partial-match strategy returns a result set, that set is
non-empty (given a positive `maxResults`), holds at most `maxResults`
items, and every item's name contains the original term
case-insensitively. -/
theorem strat4Run_some {fn : SearchFn} {t : String} {mr : Nat} {files : List DriveFile}
    (hmr : 1 ≤ mr) (h : (strat4Run fn t mr).1 = some files) :
    files ≠ [] ∧ files.length ≤ mr ∧
    ∀ f ∈ files, ∃ n, f.name = some n ∧ strContainsSub (strLower n) (strLower t) = true := by
  simp only [strat4Run] at h
  rcases hf : fn (containsQuery (strLower (strTake t (partialPrefixLen t)))) (mr * 3)
      with m | fl <;> rw [hf] at h <;> simp only [] at h
  · cases h
  · by_cases hl : 0 < (strat4Filter t fl).length
    · rw [if_pos hl] at h
      injection h with h2
      subst h2
      refine ⟨?_, ?_, ?_⟩
      · have hpos : 0 < ((strat4Filter t fl).take mr).length := by
          rw [List.length_take]
          exact lt_min hmr hl
        exact List.ne_nil_of_length_pos hpos
      · rw [List.length_take]
        exact min_le_left _ _
      · intro f hfmem
        have hmem2 : f ∈ strat4Filter t fl := List.mem_of_mem_take hfmem
        rw [strat4Filter] at hmem2
        have hpred := (List.mem_filter.mp hmem2).2
        rcases hn : f.name with _ | n <;> rw [hn] at hpred
        · cases hpred
        · exact ⟨n, rfl, hpred⟩
    · rw [if_neg hl] at h
      cases h

/-- Length of the lower-cased truncated prefix queried by the
partial-match strategy. -/
theorem strTake_lower_length (t : String) (h : 4 ≤ t.length) :
    (strLower (strTake t (partialPrefixLen t))).length = max 4 ((3 * t.length) / 5) := by
  have hdiv : (3 * t.length) / 5 ≤ t.length := by
    calc (3 * t.length) / 5 ≤ (5 * t.length) / 5 := Nat.div_le_div_right (by omega)
    _ = t.length := by omega
  have hle : partialPrefixLen t ≤ t.length := by
    rw [partialPrefixLen]
    exact max_le h hdiv
  have hlen : t.length = t.data.length := rfl
  simp only [strLower, strTake, String.length, List.length_map, List.length_take]
  rw [partialPrefixLen] at hle ⊢
  rw [← hlen]
  omega

/-- The file and backends of the concrete C5 instances. -/
def sintesFile : DriveFile :=
  ⟨"id1", some "Sintes notes", "application/vnd.google-apps.document"⟩

/-- A backend that matches only the lower-cased term (strategy 2's
query) and returns empty result sets otherwise. -/
def sintesFn : SearchFn := fun q _ =>
  if q = containsQuery "sintes" then .ok [sintesFile] else .ok []

/-- A backend whose strategy-1 call fails outright, while strategy 2
succeeds: a failing step is skipped, not fatal. -/
def sintesFailFn : SearchFn := fun q _ =>
  if q = containsQuery "Sintes" then .error "HTTP 500"
  else if q = containsQuery "sintes" then .ok [sintesFile] else .ok []

/-- Length of the failing prefix of the plan: the applicable strategies
up to (excluding) the first one whose outcome is a non-empty result set. -/
def failedLen (fn : SearchFn) (q : String) (mr : Nat) : Nat :=
  ((applicableStrats q).takeWhile (fun i => (stratOutcome fn q mr i).isNone)).length

/-! ## C5 -/

/-- C5: the fallback query engine runs its applicable strategies
strictly in plan order, at most once each: the executed trace is the
plan cut off right after the first strategy with a non-empty outcome (a
failed remote call counts as an empty outcome and is skipped, not
fatal); the returned list is that first non-empty outcome, and an empty
list is returned only when every applicable strategy was attempted
without a match.  The concrete instances: for `name contains 'Sintes'`
against a backend matching only `'sintes'`, strategy 2 returns the
results and strategies 3–6 never execute — also when the strategy-1 call
fails outright instead of coming up empty. -/
theorem fallback_engine_first_success (fn : SearchFn) (q : String) (mr : Nat)
    (hmr : 1 ≤ mr) :
    ((smartDriveSearch fn q mr).2.map SearchCall.strat =
        (applicableStrats q).take (failedLen fn q mr + 1)) ∧
    ((smartDriveSearch fn q mr).1 =
        (((applicableStrats q).drop (failedLen fn q mr)).head?.bind
          (stratOutcome fn q mr)).getD []) ∧
    List.Pairwise (· < ·) ((smartDriveSearch fn q mr).2.map SearchCall.strat) ∧
    ((smartDriveSearch fn q mr).1 = [] →
        (smartDriveSearch fn q mr).2.map SearchCall.strat = applicableStrats q) ∧
    (smartDriveSearch sintesFn (containsQuery "Sintes") 10 =
        ([sintesFile],
         [⟨1, containsQuery "Sintes", 10⟩, ⟨2, containsQuery "sintes", 10⟩]) ∧
     smartDriveSearch sintesFailFn (containsQuery "Sintes") 10 =
        ([sintesFile],
         [⟨1, containsQuery "Sintes", 10⟩, ⟨2, containsQuery "sintes", 10⟩])) := by
  have main : ((smartDriveSearch fn q mr).2.map SearchCall.strat =
        (applicableStrats q).take (failedLen fn q mr + 1)) ∧
      ((smartDriveSearch fn q mr).1 =
        (((applicableStrats q).drop (failedLen fn q mr)).head?.bind
          (stratOutcome fn q mr)).getD []) ∧
      ((smartDriveSearch fn q mr).1 = [] →
        (smartDriveSearch fn q mr).2.map SearchCall.strat = applicableStrats q) := by
    rcases hE : extractTerm q with _ | term
    · rcases h1 : runCall fn q mr with _ | files1
      · refine ⟨?_, ?_, ?_⟩ <;>
          simp [smartDriveSearch, applicableStrats, stratOutcome, failedLen, hE, h1]
      · have hne := runCall_some_ne_nil h1
        refine ⟨?_, ?_, ?_⟩ <;>
          simp [smartDriveSearch, applicableStrats, stratOutcome, failedLen, hE, h1, hne]
    · by_cases hlen : 4 ≤ term.length
      · rcases h1 : runCall fn q mr with _ | files1
        · rcases h2 : runCall fn (containsQuery (strLower term)) mr with _ | files2
          · rcases h3 : runCall fn (containsQuery (strUpper term)) mr with _ | files3
            · rcases h4 : (strat4Run fn term mr).1 with _ | files4
              · rcases h5 : runCall fn (docQuery (strLower term)) mr with _ | files5
                · rcases h6 : runCall fn (sheetQuery (strLower term)) mr with _ | files6
                  · refine ⟨?_, ?_, ?_⟩ <;>
                      simp [smartDriveSearch, smartTail56, applicableStrats, stratOutcome,
                        failedLen, strat4Run_snd, hE, hlen, h1, h2, h3, h4, h5, h6]
                  · have hne := runCall_some_ne_nil h6
                    refine ⟨?_, ?_, ?_⟩ <;>
                      simp [smartDriveSearch, smartTail56, applicableStrats, stratOutcome,
                        failedLen, strat4Run_snd, hE, hlen, h1, h2, h3, h4, h5, h6, hne]
                · have hne := runCall_some_ne_nil h5
                  refine ⟨?_, ?_, ?_⟩ <;>
                    simp [smartDriveSearch, smartTail56, applicableStrats, stratOutcome,
                      failedLen, strat4Run_snd, hE, hlen, h1, h2, h3, h4, h5, hne]
              · have hne := (strat4Run_some hmr h4).1
                refine ⟨?_, ?_, ?_⟩ <;>
                  simp [smartDriveSearch, smartTail56, applicableStrats, stratOutcome,
                    failedLen, strat4Run_snd, hE, hlen, h1, h2, h3, h4, hne]
            · have hne := runCall_some_ne_nil h3
              refine ⟨?_, ?_, ?_⟩ <;>
                simp [smartDriveSearch, applicableStrats, stratOutcome, failedLen,
                  hE, hlen, h1, h2, h3, hne]
          · have hne := runCall_some_ne_nil h2
            refine ⟨?_, ?_, ?_⟩ <;>
              simp [smartDriveSearch, applicableStrats, stratOutcome, failedLen,
                hE, hlen, h1, h2, hne]
        · have hne := runCall_some_ne_nil h1
          refine ⟨?_, ?_, ?_⟩ <;>
            simp [smartDriveSearch, applicableStrats, stratOutcome, failedLen,
              hE, hlen, h1, hne]
      · rcases h1 : runCall fn q mr with _ | files1
        · rcases h2 : runCall fn (containsQuery (strLower term)) mr with _ | files2
          · rcases h3 : runCall fn (containsQuery (strUpper term)) mr with _ | files3
            · rcases h5 : runCall fn (docQuery (strLower term)) mr with _ | files5
              · rcases h6 : runCall fn (sheetQuery (strLower term)) mr with _ | files6
                · refine ⟨?_, ?_, ?_⟩ <;>
                    simp [smartDriveSearch, smartTail56, applicableStrats, stratOutcome,
                      failedLen, hE, hlen, h1, h2, h3, h5, h6]
                · have hne := runCall_some_ne_nil h6
                  refine ⟨?_, ?_, ?_⟩ <;>
                    simp [smartDriveSearch, smartTail56, applicableStrats, stratOutcome,
                      failedLen, hE, hlen, h1, h2, h3, h5, h6, hne]
              · have hne := runCall_some_ne_nil h5
                refine ⟨?_, ?_, ?_⟩ <;>
                  simp [smartDriveSearch, smartTail56, applicableStrats, stratOutcome,
                    failedLen, hE, hlen, h1, h2, h3, h5, hne]
            · have hne := runCall_some_ne_nil h3
              refine ⟨?_, ?_, ?_⟩ <;>
                simp [smartDriveSearch, applicableStrats, stratOutcome, failedLen,
                  hE, hlen, h1, h2, h3, hne]
          · have hne := runCall_some_ne_nil h2
            refine ⟨?_, ?_, ?_⟩ <;>
              simp [smartDriveSearch, applicableStrats, stratOutcome, failedLen,
                hE, hlen, h1, h2, hne]
        · have hne := runCall_some_ne_nil h1
          refine ⟨?_, ?_, ?_⟩ <;>
            simp [smartDriveSearch, applicableStrats, stratOutcome, failedLen,
              hE, hlen, h1, hne]
  have hplanPW : List.Pairwise (· < ·) (applicableStrats q) := by
    rw [applicableStrats]
    rcases extractTerm q with _ | t
    · decide
    · simp only []
      by_cases hl : 4 ≤ t.length
      · rw [if_pos hl]; decide
      · rw [if_neg hl]; decide
  refine ⟨main.1, main.2.1, ?_, main.2.2, by decide, by decide⟩
  rw [main.1]
  exact List.Pairwise.sublist (List.take_sublist _ _) hplanPW

theorem fallback_engine_witness :
    (1 ≤ 10) ∧
    (((smartDriveSearch sintesFn (containsQuery "Sintes") 10).2.map SearchCall.strat =
        (applicableStrats (containsQuery "Sintes")).take
          (failedLen sintesFn (containsQuery "Sintes") 10 + 1)) ∧
      ((smartDriveSearch sintesFn (containsQuery "Sintes") 10).1 =
        (((applicableStrats (containsQuery "Sintes")).drop
            (failedLen sintesFn (containsQuery "Sintes") 10)).head?.bind
          (stratOutcome sintesFn (containsQuery "Sintes") 10)).getD []) ∧
      List.Pairwise (· < ·)
        ((smartDriveSearch sintesFn (containsQuery "Sintes") 10).2.map SearchCall.strat) ∧
      ((smartDriveSearch sintesFn (containsQuery "Sintes") 10).1 = [] →
        (smartDriveSearch sintesFn (containsQuery "Sintes") 10).2.map SearchCall.strat =
          applicableStrats (containsQuery "Sintes")) ∧
      (smartDriveSearch sintesFn (containsQuery "Sintes") 10 =
          ([sintesFile],
           [⟨1, containsQuery "Sintes", 10⟩, ⟨2, containsQuery "sintes", 10⟩]) ∧
       smartDriveSearch sintesFailFn (containsQuery "Sintes") 10 =
          ([sintesFile],
           [⟨1, containsQuery "Sintes", 10⟩, ⟨2, containsQuery "sintes", 10⟩]))) :=
  ⟨by decide, fallback_engine_first_success sintesFn (containsQuery "Sintes") 10 (by decide)⟩

/-! ## C6 -/

/-- C6: the partial-match strategy queries the lower-cased prefix of the
extracted term whose length is `max(4, floor(0.6 × len(term)))` (for
terms of length at least 4), with a result cap of `3 × maxResults`;
whatever it returns has been filtered to items whose name contains the
original term case-insensitively and truncated to at most `maxResults`
items; and for terms shorter than 4 characters the strategy is skipped —
no strategy-4 call ever appears in the engine's trace. -/
theorem partial_match_strategy (fn : SearchFn) (q term : String) (mr : Nat)
    (hq : extractTerm q = some term) :
    ((strat4Run fn term mr).2.q =
        containsQuery (strLower (strTake term (partialPrefixLen term))) ∧
     (strat4Run fn term mr).2.pageSize = 3 * mr) ∧
    (4 ≤ term.length →
      (strLower (strTake term (partialPrefixLen term))).length =
        max 4 ((3 * term.length) / 5)) ∧
    (1 ≤ mr → ∀ files, (strat4Run fn term mr).1 = some files →
      files.length ≤ mr ∧
      ∀ f ∈ files, ∃ n, f.name = some n ∧
        strContainsSub (strLower n) (strLower term) = true) ∧
    (term.length < 4 → ∀ c ∈ (smartDriveSearch fn q mr).2, c.strat ≠ 4) := by
  refine ⟨⟨rfl, by rw [strat4Run_snd]; exact Nat.mul_comm mr 3⟩,
    fun hlen => strTake_lower_length term hlen, ?_, ?_⟩
  · intro hmr files h4
    exact ⟨(strat4Run_some hmr h4).2.1, (strat4Run_some hmr h4).2.2⟩
  · intro hlt
    have hlen : ¬ 4 ≤ term.length := by omega
    rcases h1 : runCall fn q mr with _ | files1
    · rcases h2 : runCall fn (containsQuery (strLower term)) mr with _ | files2
      · rcases h3 : runCall fn (containsQuery (strUpper term)) mr with _ | files3
        · rcases h5 : runCall fn (docQuery (strLower term)) mr with _ | files5
          · rcases h6 : runCall fn (sheetQuery (strLower term)) mr with _ | files6 <;>
              simp [smartDriveSearch, smartTail56, hq, hlen, h1, h2, h3, h5, h6]
          · simp [smartDriveSearch, smartTail56, hq, hlen, h1, h2, h3, h5]
        · simp [smartDriveSearch, hq, hlen, h1, h2, h3]
      · simp [smartDriveSearch, hq, hlen, h1, h2]
    · simp [smartDriveSearch, hq, hlen, h1]

theorem partial_match_strategy_witness :
    (extractTerm (containsQuery "Sintes") = some "Sintes") ∧
    (((strat4Run (fun _ _ => (Except.ok [] : Except String (List DriveFile))) "Sintes" 10).2.q =
          containsQuery (strLower (strTake "Sintes" (partialPrefixLen "Sintes"))) ∧
       (strat4Run (fun _ _ => (Except.ok [] : Except String (List DriveFile))) "Sintes" 10).2.pageSize = 3 * 10) ∧
      (4 ≤ ("Sintes" : String).length →
        (strLower (strTake "Sintes" (partialPrefixLen "Sintes"))).length =
          max 4 ((3 * ("Sintes" : String).length) / 5)) ∧
      (1 ≤ 10 → ∀ files,
        (strat4Run (fun _ _ => (Except.ok [] : Except String (List DriveFile))) "Sintes" 10).1 = some files →
        files.length ≤ 10 ∧
        ∀ f ∈ files, ∃ n, f.name = some n ∧
          strContainsSub (strLower n) (strLower "Sintes") = true) ∧
      (("Sintes" : String).length < 4 →
        ∀ c ∈ (smartDriveSearch (fun _ _ => (Except.ok [] : Except String (List DriveFile)))
            (containsQuery "Sintes") 10).2, c.strat ≠ 4)) :=
  ⟨by decide, partial_match_strategy (fun _ _ => (Except.ok [] : Except String (List DriveFile)))
    (containsQuery "Sintes") "Sintes" 10 (by decide)⟩

end McpGoogle
